import Mathlib

/-!
Verification of the chitchat client-side synchronization layer.

This development shallowly embeds the conversation-list synchronizer, the
notification-decision logic and the presence tracker of the chitchat
repository:

* `src/services/messages.ts` — `subscribeToChats` (the membership-index
  handler, the per-conversation handler and the `notifyUpdate` aggregation)
  and `subscribeToUserPresence`;
* `src/stores/chats.ts` — `initChatsListener` (the chat-snapshot callback
  with its initial-load baseline and per-chat notification decision), the
  error callback, and the presence callback installed by
  `updatePresenceSubscriptions`.

Modelling conventions:

* Record fields that may be `undefined`/`null` in the TypeScript payloads
  are modelled with `Option`; a string field tested only for JS truthiness
  (`lastMessage`, `displayName`, `email`, name lookups) is modelled as a
  `String` where `""` stands for both the empty string and a missing value
  (both are falsy, and every use in the source only distinguishes
  falsy/truthy).
* `updatedAt` arrives over the RTDB JSON transport, so a delivered value is
  either a number (`some t`) or missing (`none`); the source guards every
  read with `typeof x === 'number'` and we model the corresponding
  fallbacks (`Date.now()` resp. `0`) explicitly.
* JS `Map`s keyed by strings are modelled as lookup functions
  `String → Option _` when only lookups matter, and as insertion-ordered
  association lists when iteration order matters (`chatData`, whose value
  order feeds the published list through a stable sort).
* Side effects (OS notifications, sounds, publishing a chat list) are
  captured as explicit outputs: each handler returns its updated state
  together with the list of emitted notification intents, the number of
  received-sound plays, or the list of published snapshots.
* ECMAScript `Array.prototype.sort` is required to be stable, and the
  comparator used by `notifyUpdate` is a total preorder induced by a
  numeric key, so its result is the unique stable sort; we model it with a
  stable insertion sort.
-/

/-- Connection state exposed by the chats store
(`src/stores/chats.ts`, `type ConnectionState`). -/
inductive ConnectionState where
  | idle
  | connecting
  | connected
  | error
deriving DecidableEq, Repr

/-- A user-visible notification intent: the decision to alert the user,
decoupled from delivery.  `newMessage` carries the arguments of
`notifyNewMessage(chat.id, senderName, chat.lastMessage)`;
`contactOnline`/`contactOffline` carry the argument of
`notifyUserOnline(userName)` / `notifyUserOffline(userName)`. -/
inductive NotificationIntent where
  | newMessage (chatId senderName text : String)
  | contactOnline (name : String)
  | contactOffline (name : String)
deriving DecidableEq, Repr

/-- A user/presence record as delivered by `subscribeToUserPresence`
(`src/types/index.ts`, interface `User`).  `isOnline` is optional in the
source (`isOnline?: boolean`); every read coerces it with `=== true`.
`displayName` and `email` are only tested for truthiness, so `""` models
a missing or empty value.  `createdAt`/`lastSeen` are never read by the
embedded operations and are omitted. -/
structure User where
  id : String
  displayName : String
  email : String
  isOnline : Option Bool
deriving DecidableEq, Repr

/-- A conversation record as delivered by a per-conversation subscription
(`src/types/index.ts`, interface `Chat`).  `participants` is the key set
of the `{ odId: true }` object; `participantNames` is the optional
name map; `lastMessageSenderId` is optional; `updatedAt` is `some t` when
the payload holds the number `t`.  The `typing` map and the group
metadata are never read by the embedded operations and are omitted. -/
structure Chat where
  id : String
  participants : List String
  participantNames : List (String × String)
  lastMessage : String
  lastMessageSenderId : Option String
  updatedAt : Option Nat
deriving DecidableEq, Repr

/-- JS `a || b` on strings: `a` when truthy (non-empty), else `b`. -/
def jsOr (a b : String) : String :=
  if a = "" then b else a

/-- `names?.[k]` for the `participantNames` object: the bound value, or the
falsy `""` when the map or the key is missing. -/
def lookupName (names : List (String × String)) (k : String) : String :=
  match names.find? (fun p => p.1 = k) with
  | some p => p.2
  | none => ""

/-- Sender-name resolution of `src/stores/chats.ts` lines 135-141:
`senderId ? chat.participantNames?.[senderId] ||
otherUserPresence()[senderId]?.displayName ||
otherUserPresence()[senderId]?.email || 'Someone' : 'Someone'`. -/
def resolveSenderName (presence : String → Option User) (chat : Chat) : String :=
  match chat.lastMessageSenderId with
  | none => "Someone"
  | some sid =>
    if sid = "" then "Someone"
    else
      jsOr (lookupName chat.participantNames sid)
        (jsOr (match presence sid with | some u => u.displayName | none => "")
          (jsOr (match presence sid with | some u => u.email | none => "") "Someone"))

/-- `Map.set` on a map used only through lookups
(`notifiedMessageTimestamps`). -/
def mapSet (m : String → Option Nat) (k : String) (v : Nat) : String → Option Nat :=
  fun k' => if k' = k then some v else m k'

/-- Ambient inputs read by the chat-snapshot callback: the logged-in user,
the selected conversation, `document.hidden`, `document.hasFocus()` and
the presence cache consulted for sender names. -/
structure NotifyEnv where
  loggedInUserId : String
  currentChatId : Option String
  documentHidden : Bool
  documentHasFocus : Bool
  otherUserPresence : String → Option User

/-- The per-conversation body of the non-initial branch of the chat-snapshot
callback (`src/stores/chats.ts` lines 118-159).  Returns the updated
`notifiedMessageTimestamps` map, the emitted `NewMessage` intent (if any)
and whether `playMessageReceived()` was called. -/
def processChat (env : NotifyEnv) (notified : String → Option Nat) (chat : Chat) :
    (String → Option Nat) × Option NotificationIntent × Bool :=
  let chatTimestamp := chat.updatedAt.getD 0
  let lastNotifiedTimestamp := (notified chat.id).getD 0
  let isNewerMessage := decide (lastNotifiedTimestamp < chatTimestamp)
  let hasSenderId := chat.lastMessageSenderId.isSome
  let isFromOther := decide (chat.lastMessageSenderId ≠ some env.loggedInUserId)
  let isViewingChat :=
    decide (env.currentChatId = some chat.id) && !env.documentHidden && env.documentHasFocus
  if isNewerMessage && hasSenderId && isFromOther && !isViewingChat
      && !(decide (chat.lastMessage = "")) then
    (mapSet notified chat.id chatTimestamp,
     some (.newMessage chat.id (resolveSenderName env.otherUserPresence chat) chat.lastMessage),
     true)
  else if isNewerMessage then
    (mapSet notified chat.id chatTimestamp, none, isViewingChat && isFromOther)
  else
    (notified, none, false)

/-- The `newChats.forEach` loop of the non-initial branch: folds
`processChat` over the snapshot, collecting emitted intents and counting
received-sound plays. -/
def processChats (env : NotifyEnv) (notified : String → Option Nat) (newChats : List Chat) :
    (String → Option Nat) × List NotificationIntent × Nat :=
  newChats.foldl
    (fun acc chat =>
      let r := processChat env acc.1 chat
      (r.1, acc.2.1 ++ r.2.1.toList, acc.2.2 + (if r.2.2 then 1 else 0)))
    (notified, [], 0)

/-- Module state of `src/stores/chats.ts` touched by the chat subscription
callbacks: `isInitialChatsLoad`, `notifiedMessageTimestamps` and the
`connectionState` signal. -/
structure ChatsListenerState where
  isInitialChatsLoad : Bool
  notifiedMessageTimestamps : String → Option Nat
  connectionState : ConnectionState

/-- The chat-snapshot callback passed to `subscribeToChats` by
`initChatsListener` (`src/stores/chats.ts` lines 94-173).  On the initial
load it records each chat's timestamp
(`typeof chat.updatedAt === 'number' ? chat.updatedAt : Date.now()`) as a
baseline and emits nothing; afterwards it runs `processChat` on every
chat.  Both branches publish the `connected` state.  Returns the new
state, the emitted intents and the number of received-sound plays. -/
def onChatsUpdate (env : NotifyEnv) (now : Nat) (st : ChatsListenerState)
    (newChats : List Chat) : ChatsListenerState × List NotificationIntent × Nat :=
  if st.isInitialChatsLoad then
    let m := newChats.foldl
      (fun m chat => mapSet m chat.id (chat.updatedAt.getD now))
      st.notifiedMessageTimestamps
    (⟨false, m, .connected⟩, [], 0)
  else
    let r := processChats env st.notifiedMessageTimestamps newChats
    (⟨false, r.1, .connected⟩, r.2.1, r.2.2)

/-- The error callback passed to `subscribeToChats` by `initChatsListener`
(`src/stores/chats.ts` lines 174-177): it logs and publishes the `error`
state, touching nothing else. -/
def onChatsError (st : ChatsListenerState) : ChatsListenerState :=
  { st with connectionState := .error }

/-- The events that reach the chats store: `initChatsListener` (start), a
chat snapshot, a transport error on the index subscription, and
`cleanupChatsListener` (stop). -/
inductive StoreEvent where
  | start
  | chatsSnapshot (newChats : List Chat)
  | chatsError
  | stop

/-- Effect of each event on the `connectionState` signal, read off the
`setConnectionState` calls in `src/stores/chats.ts`: `initChatsListener`
sets `connecting` (line 83), every snapshot callback sets `connected`
(lines 103 and 162), the error callback sets `error` (line 176), and
`cleanupChatsListener` never sets it. -/
def connectionStep (s : ConnectionState) : StoreEvent → ConnectionState
  | .start => .connecting
  | .chatsSnapshot _ => .connected
  | .chatsError => .error
  | .stop => s

/-- Per-tracked-user presence state of `src/stores/chats.ts`:
`presenceInitialStates` (the "seen at least one update" set) and the
`otherUserPresence` cache. -/
structure PresenceState where
  presenceInitialStates : String → Bool
  otherUserPresence : String → Option User

/-- The presence callback installed by `updatePresenceSubscriptions` for a
tracked id (`src/stores/chats.ts` lines 207-237), composed with
`subscribeToUserPresence` which delivers `some user` when the record
exists and `none` otherwise.  A `none` delivery does nothing.  For a
record: the first delivery since the subscription opened only marks the
id seen; later deliveries compare the cached `isOnline === true` against
the new one and emit `contactOnline` / `contactOffline` on a change; the
cache is then set unconditionally. -/
def onPresenceUpdate (odId : String) (st : PresenceState) (user : Option User) :
    PresenceState × List NotificationIntent :=
  match user with
  | none => (st, [])
  | some u =>
    let prevUser := st.otherUserPresence odId
    let userName := jsOr u.displayName (jsOr u.email "A contact")
    let isInitialLoad := !(st.presenceInitialStates odId)
    let intents : List NotificationIntent :=
      if isInitialLoad then []
      else
        match prevUser with
        | none => []
        | some prev =>
          let wasOnline := decide (prev.isOnline = some true)
          let isNowOnline := decide (u.isOnline = some true)
          (if !wasOnline && isNowOnline then [.contactOnline userName] else []) ++
            (if wasOnline && !isNowOnline then [.contactOffline userName] else [])
    let seen := if isInitialLoad then
        (fun k => if k = odId then true else st.presenceInitialStates k)
      else st.presenceInitialStates
    (⟨seen, fun k => if k = odId then some u else st.otherUserPresence k⟩, intents)

/-- Numeric sort key used by `notifyUpdate`
(`typeof a.updatedAt === 'number' ? a.updatedAt :
a.updatedAt?.getTime?.() || 0`): the number when present, else `0`. -/
def sortKey (c : Chat) : Nat :=
  c.updatedAt.getD 0

/-- The comparator of `notifyUpdate`: `timeB - timeA` (descending by
`updatedAt`). -/
def chatCompare (a b : Chat) : Int :=
  (sortKey b : Int) - (sortKey a : Int)

/-- Stable insertion of `x` into a list: `x` is placed before the first
element it need not follow, so elements comparing equal keep their
original relative order. -/
def insertJS (x : Chat) : List Chat → List Chat
  | [] => [x]
  | y :: ys => if chatCompare x y ≤ 0 then x :: y :: ys else y :: insertJS x ys

/-- Stable sort with the `notifyUpdate` comparator.  ECMAScript requires
`Array.prototype.sort` to be stable, and `chatCompare` is the total
preorder induced by `sortKey`, so the stable result is unique and this
insertion sort models it exactly. -/
def sortJS (l : List Chat) : List Chat :=
  l.foldr insertJS []

/-- `notifyUpdate` of `subscribeToChats` (`src/services/messages.ts`):
collect `chatData.values()` in insertion order, sort with the stable
descending-`updatedAt` comparator, and publish. -/
def notifyUpdate (chatData : List (String × Chat)) : List Chat :=
  sortJS (chatData.map (fun p => p.2))

/-- `Map.set` on the insertion-ordered `chatData` map: replaces in place
when the key is present, else appends. -/
def mapSetChat (m : List (String × Chat)) (k : String) (v : Chat) : List (String × Chat) :=
  if m.any (fun p => p.1 = k) then
    m.map (fun p => if p.1 = k then (k, v) else p)
  else m ++ [(k, v)]

/-- Internal state of one `subscribeToChats` call: the keys of the
`chatSubscriptions` map in insertion order, and the `chatData` cache. -/
structure SubsState where
  chatSubscriptions : List String
  chatData : List (String × Chat)
deriving DecidableEq, Repr

/-- The `userChats` index handler of `subscribeToChats`
(`src/services/messages.ts`): given the ids in the index snapshot, it
subscribes to newly appearing ids, then releases the subscription and
drops the cached record of every id no longer present, and calls
`notifyUpdate` only when the snapshot is empty.  Returns the new state
and the list of published snapshots (data deliveries for fresh
subscriptions arrive later as separate `onConversationUpdate` events). -/
def onIndexUpdate (st : SubsState) (currentChatIds : List String) :
    SubsState × List (List Chat) :=
  let subs1 := currentChatIds.foldl
    (fun s i => if s.contains i then s else s ++ [i]) st.chatSubscriptions
  let subs2 := subs1.filter (fun i => currentChatIds.contains i)
  let data2 := st.chatData.filter (fun p => currentChatIds.contains p.1)
  let published := if currentChatIds.isEmpty then [notifyUpdate data2] else []
  (⟨subs2, data2⟩, published)

/-- The per-conversation handler of `subscribeToChats`
(`src/services/messages.ts`): an existing snapshot stores
`{ id: chatId, ...val }` in `chatData`, a missing one deletes the entry;
either way `notifyUpdate` publishes the re-aggregated list. -/
def onConversationUpdate (st : SubsState) (chatId : String) (snap : Option Chat) :
    SubsState × List Chat :=
  let data' := match snap with
    | some c => mapSetChat st.chatData chatId { c with id := chatId }
    | none => st.chatData.filter (fun p => p.1 ≠ chatId)
  (⟨st.chatSubscriptions, data'⟩, notifyUpdate data')

/-- The index-subscription error handler of `subscribeToChats`
(`src/services/messages.ts`): it logs and forwards the error to the
caller's `onError`; it opens no subscription, releases nothing and
publishes nothing. -/
def onIndexError (st : SubsState) : SubsState × List (List Chat) :=
  (st, [])

/-- C10: delivering a `null` presence record to the presence callback of a
tracked counterpart has no effect at all: the "seen once" set, the
presence cache and the whole state are unchanged, and no intent is
emitted — so the first non-null delivery is the one treated as the
baseline. -/
theorem presence_null_update_is_noop (odId : String) (st : PresenceState) :
    onPresenceUpdate odId st none = (st, []) :=
  rfl

/-- C1: a transport-level error on the index subscription publishes the
`error` connection state; the store-side error handler changes nothing
else, the service-side error handler keeps every subscription and
publishes nothing (no automatic retry or resubscription), and the only
events that leave `connecting` are the error (to `error`) and a chat
snapshot (to `connected`). -/
theorem index_error_publishes_error_state :
    (∀ s : ConnectionState, connectionStep s .chatsError = .error) ∧
    (∀ st : ChatsListenerState, (onChatsError st).connectionState = .error ∧
      (onChatsError st).isInitialChatsLoad = st.isInitialChatsLoad ∧
      (onChatsError st).notifiedMessageTimestamps = st.notifiedMessageTimestamps) ∧
    (∀ st : SubsState, onIndexError st = (st, [])) ∧
    (∀ e : StoreEvent, connectionStep .connecting e = .connecting ∨
      (e = .chatsError ∧ connectionStep .connecting e = .error) ∨
      (∃ cs, e = .chatsSnapshot cs ∧ connectionStep .connecting e = .connected)) := by
  refine ⟨fun s => rfl, fun st => ⟨rfl, rfl, rfl⟩, fun st => rfl, fun e => ?_⟩
  cases e with
  | start => exact Or.inl rfl
  | chatsSnapshot cs => exact Or.inr (Or.inr ⟨cs, rfl, rfl⟩)
  | chatsError => exact Or.inr (Or.inl ⟨rfl, rfl⟩)
  | stop => exact Or.inl rfl

/-- C4: for a tracked counterpart not yet marked seen, the first delivered
presence record is cached as a baseline with no intent; the second
record, when its online boolean differs from the cached one, emits
`contactOnline` on false-to-true and `contactOffline` on true-to-false,
emits nothing when the value is unchanged, and the cache is updated
after each classification. -/
theorem presence_second_update_classifies (odId : String) (st0 : PresenceState)
    (u1 u2 : User) (b1 b2 : Bool)
    (h0 : st0.presenceInitialStates odId = false)
    (h1 : u1.isOnline = some b1) (h2 : u2.isOnline = some b2) :
    (onPresenceUpdate odId st0 (some u1)).2 = [] ∧
    (onPresenceUpdate odId st0 (some u1)).1.presenceInitialStates odId = true ∧
    (onPresenceUpdate odId st0 (some u1)).1.otherUserPresence odId = some u1 ∧
    (onPresenceUpdate odId (onPresenceUpdate odId st0 (some u1)).1
        (some u2)).1.otherUserPresence odId = some u2 ∧
    (b1 = false → b2 = true →
      (onPresenceUpdate odId (onPresenceUpdate odId st0 (some u1)).1 (some u2)).2 =
        [.contactOnline (jsOr u2.displayName (jsOr u2.email "A contact"))]) ∧
    (b1 = true → b2 = false →
      (onPresenceUpdate odId (onPresenceUpdate odId st0 (some u1)).1 (some u2)).2 =
        [.contactOffline (jsOr u2.displayName (jsOr u2.email "A contact"))]) ∧
    (b1 = b2 →
      (onPresenceUpdate odId (onPresenceUpdate odId st0 (some u1)).1 (some u2)).2 = []) := by
  simp only [onPresenceUpdate, h0, h1, h2]
  cases b1 <;> cases b2 <;> simp [h1, h2]

/-- The `isViewingChat` conjunction is false exactly when the conversation is
not both selected and foreground-visible. -/
theorem isViewing_false_of_not (env : NotifyEnv) (chat : Chat)
    (hview : ¬(env.currentChatId = some chat.id ∧ env.documentHidden = false ∧
      env.documentHasFocus = true)) :
    (decide (env.currentChatId = some chat.id) && !env.documentHidden &&
      env.documentHasFocus) = false := by
  by_cases hcc : env.currentChatId = some chat.id
  · cases hdh : env.documentHidden with
    | true => simp [hcc, hdh]
    | false =>
      cases hdf : env.documentHasFocus with
      | true => exact absurd ⟨hcc, hdh, hdf⟩ hview
      | false => simp [hcc, hdh, hdf]
  · simp [hcc]

/-- C3 counterexample: a post-baseline update satisfying every condition of
the claim (newer timestamp, sender set and different from the logged-in
user, conversation not selected) but carrying an empty `lastMessage`
emits no `NewMessage` intent and plays no sound: the source additionally
requires `chat.lastMessage` to be truthy before notifying, and the
sound of the non-notifying branch is tied to viewing the chat. -/
theorem empty_last_message_suppresses_notification :
    (Chat.mk "conv100" [] [] "" (some "bob") (some 300)).updatedAt = some 300 ∧
    (((fun k => if k = "conv100" then some 200 else none : String → Option Nat)
      "conv100").getD 0 < 300) ∧
    (Chat.mk "conv100" [] [] "" (some "bob") (some 300)).lastMessageSenderId = some "bob" ∧
    ("bob" : String) ≠ "me" ∧
    ¬((NotifyEnv.mk "me" (some "conv200") false true (fun _ => none)).currentChatId =
        some "conv100" ∧ False ∧ True) ∧
    (processChat (NotifyEnv.mk "me" (some "conv200") false true (fun _ => none))
      (fun k => if k = "conv100" then some 200 else none)
      (Chat.mk "conv100" [] [] "" (some "bob") (some 300))).2.1 = none ∧
    (processChat (NotifyEnv.mk "me" (some "conv200") false true (fun _ => none))
      (fun k => if k = "conv100" then some 200 else none)
      (Chat.mk "conv100" [] [] "" (some "bob") (some 300))).2.2 = false := by
  decide

/-- C3 amended: a post-baseline update with a strictly newer timestamp, a
set sender different from the logged-in user, the conversation not both
selected and foreground-visible, and a non-empty last message, emits a
`NewMessage` intent carrying the conversation id, the resolved sender
name and the last-message text, plays the received sound, and advances
the last-notified timestamp to the update's `updatedAt`. -/
theorem new_message_notifies_and_plays (env : NotifyEnv) (m : String → Option Nat)
    (chat : Chat) (ts : Nat) (sid : String)
    (hts : chat.updatedAt = some ts)
    (hlast : (m chat.id).getD 0 < ts)
    (hsid : chat.lastMessageSenderId = some sid)
    (hother : sid ≠ env.loggedInUserId)
    (hview : ¬(env.currentChatId = some chat.id ∧ env.documentHidden = false ∧
      env.documentHasFocus = true))
    (hmsg : chat.lastMessage ≠ "") :
    (processChat env m chat).2.1 =
      some (.newMessage chat.id (resolveSenderName env.otherUserPresence chat)
        chat.lastMessage) ∧
    (processChat env m chat).2.2 = true ∧
    (processChat env m chat).1 chat.id = some ts := by
  have hv := isViewing_false_of_not env chat hview
  have h1 : decide ((m chat.id).getD 0 < ts) = true := decide_eq_true hlast
  have h2 : decide (¬(some sid = some env.loggedInUserId)) = true := by
    simp [hother]
  have h3 : decide (chat.lastMessage = "") = false := decide_eq_false hmsg
  simp [processChat, hts, hsid, hv, h1, h2, h3, hother, mapSet]

/-- C7: a post-baseline update with a strictly newer timestamp and a set
sender different from the logged-in user, while the conversation is
selected and the window is foreground-and-visible, emits no `NewMessage`
intent, still plays the received sound, and advances the last-notified
timestamp to the update's `updatedAt`. -/
theorem viewing_chat_suppresses_intent_still_plays (env : NotifyEnv)
    (m : String → Option Nat) (chat : Chat) (ts : Nat) (sid : String)
    (hts : chat.updatedAt = some ts)
    (hlast : (m chat.id).getD 0 < ts)
    (hsid : chat.lastMessageSenderId = some sid)
    (hother : sid ≠ env.loggedInUserId)
    (hsel : env.currentChatId = some chat.id)
    (hhid : env.documentHidden = false)
    (hfoc : env.documentHasFocus = true) :
    (processChat env m chat).2.1 = none ∧
    (processChat env m chat).2.2 = true ∧
    (processChat env m chat).1 chat.id = some ts := by
  have h1 : decide ((m chat.id).getD 0 < ts) = true := decide_eq_true hlast
  have h2 : decide (¬(some sid = some env.loggedInUserId)) = true := by
    simp [hother]
  simp [processChat, hts, hsid, hsel, hhid, hfoc, h1, h2, hother, mapSet]

/-- C8: an update whose `lastMessageSenderId` is unset or equals the
logged-in user never emits a `NewMessage` intent, and when its timestamp
is strictly newer than the last-notified one, the timestamp is still
advanced to the update's `updatedAt`. -/
theorem own_or_unknown_sender_never_notifies (env : NotifyEnv)
    (m : String → Option Nat) (chat : Chat)
    (hsid : chat.lastMessageSenderId = none ∨
      chat.lastMessageSenderId = some env.loggedInUserId) :
    (processChat env m chat).2.1 = none ∧
    ∀ ts, chat.updatedAt = some ts → (m chat.id).getD 0 < ts →
      (processChat env m chat).1 chat.id = some ts := by
  have hcond : chat.lastMessageSenderId.isSome = false ∨
      decide (¬(chat.lastMessageSenderId = some env.loggedInUserId)) = false := by
    rcases hsid with h | h
    · exact Or.inl (by simp [h])
    · exact Or.inr (by simp [h])
  constructor
  · rcases hcond with h | h <;> simp only [processChat, h] <;>
      simp <;> split <;> simp
  · intro ts hts hlast
    have h1 : decide ((m chat.id).getD 0 < ts) = true := decide_eq_true hlast
    rcases hcond with h | h <;> simp [processChat, h, hts, h1, mapSet]

/-- Witness for `new_message_notifies_and_plays` at the concrete input of
spec scenario B (update of `conv100` by `bob` while `conv200` is
selected and the window is focused). -/
theorem new_message_notifies_and_plays_witness :
    (0 : Nat) < 300 ∧ ("bob" : String) ≠ "me" ∧ ("hi" : String) ≠ "" ∧
    ¬((some "conv200" : Option String) = some "conv100" ∧ false = false ∧ true = true) ∧
    ((processChat (NotifyEnv.mk "me" (some "conv200") false true (fun _ => none))
        (fun _ => none)
        (Chat.mk "conv100" [] [("bob", "Bob")] "hi" (some "bob") (some 300))).2.1 =
      some (.newMessage "conv100"
        (resolveSenderName (fun _ => none)
          (Chat.mk "conv100" [] [("bob", "Bob")] "hi" (some "bob") (some 300))) "hi") ∧
    (processChat (NotifyEnv.mk "me" (some "conv200") false true (fun _ => none))
        (fun _ => none)
        (Chat.mk "conv100" [] [("bob", "Bob")] "hi" (some "bob") (some 300))).2.2 = true ∧
    (processChat (NotifyEnv.mk "me" (some "conv200") false true (fun _ => none))
        (fun _ => none)
        (Chat.mk "conv100" [] [("bob", "Bob")] "hi" (some "bob") (some 300))).1 "conv100" =
      some 300) :=
  ⟨by decide, by decide, by decide, by decide,
   new_message_notifies_and_plays _ _ _ 300 "bob" rfl (by decide) rfl (by decide)
     (by decide) (by decide)⟩

/-- Witness for `viewing_chat_suppresses_intent_still_plays` at the concrete
input of spec scenario C (same update while `conv100` is selected and the
window is focused). -/
theorem viewing_chat_suppresses_intent_still_plays_witness :
    (0 : Nat) < 300 ∧ ("bob" : String) ≠ "me" ∧
    ((processChat (NotifyEnv.mk "me" (some "conv100") false true (fun _ => none))
        (fun _ => none)
        (Chat.mk "conv100" [] [("bob", "Bob")] "hi" (some "bob") (some 300))).2.1 = none ∧
    (processChat (NotifyEnv.mk "me" (some "conv100") false true (fun _ => none))
        (fun _ => none)
        (Chat.mk "conv100" [] [("bob", "Bob")] "hi" (some "bob") (some 300))).2.2 = true ∧
    (processChat (NotifyEnv.mk "me" (some "conv100") false true (fun _ => none))
        (fun _ => none)
        (Chat.mk "conv100" [] [("bob", "Bob")] "hi" (some "bob") (some 300))).1 "conv100" =
      some 300) :=
  ⟨by decide, by decide,
   viewing_chat_suppresses_intent_still_plays _ _ _ 300 "bob" rfl (by decide) rfl
     (by decide) rfl rfl rfl⟩

/-- Witness for `own_or_unknown_sender_never_notifies` at a concrete input
(own message in `conv100`, newer timestamp). -/
theorem own_or_unknown_sender_never_notifies_witness :
    ((Chat.mk "conv100" [] [] "mine" (some "me") (some 300)).lastMessageSenderId = none ∨
      (Chat.mk "conv100" [] [] "mine" (some "me") (some 300)).lastMessageSenderId =
        some "me") ∧
    ((processChat (NotifyEnv.mk "me" none false false (fun _ => none))
        (fun _ => none) (Chat.mk "conv100" [] [] "mine" (some "me") (some 300))).2.1 = none ∧
    ∀ ts, (Chat.mk "conv100" [] [] "mine" (some "me") (some 300)).updatedAt = some ts →
      (((fun _ => none : String → Option Nat) "conv100").getD 0 < ts) →
      (processChat (NotifyEnv.mk "me" none false false (fun _ => none))
        (fun _ => none) (Chat.mk "conv100" [] [] "mine" (some "me") (some 300))).1 "conv100" =
        some ts) :=
  ⟨Or.inr rfl, own_or_unknown_sender_never_notifies _ _ _ (Or.inr rfl)⟩

/-- Folding the baseline recording over chats whose ids all differ from `k`
leaves the binding of `k` unchanged. -/
theorem foldl_baseline_not_mem (now : Nat) (cs : List Chat) (m : String → Option Nat)
    (k : String) (h : k ∉ cs.map Chat.id) :
    cs.foldl (fun m chat => mapSet m chat.id (chat.updatedAt.getD now)) m k = m k := by
  induction cs generalizing m with
  | nil => rfl
  | cons c cs ih =>
    simp only [List.map_cons, List.mem_cons, not_or] at h
    rw [List.foldl_cons, ih _ h.2]
    simp [mapSet, h.1]

/-- With duplicate-free ids, the baseline fold binds each chat's id to its
recorded timestamp. -/
theorem foldl_baseline_mem (now : Nat) (cs : List Chat) (m : String → Option Nat)
    (chat : Chat) (hmem : chat ∈ cs) (hnd : (cs.map Chat.id).Nodup) :
    cs.foldl (fun m c => mapSet m c.id (c.updatedAt.getD now)) m chat.id =
      some (chat.updatedAt.getD now) := by
  induction cs generalizing m with
  | nil => cases hmem
  | cons c cs ih =>
    rw [List.map_cons, List.nodup_cons] at hnd
    rcases List.mem_cons.mp hmem with rfl | hmem'
    · rw [List.foldl_cons, foldl_baseline_not_mem now cs _ _ hnd.1]
      simp [mapSet]
    · rw [List.foldl_cons]
      exact ih _ hmem' hnd.2

/-- C2: the first chat snapshot after `initChatsListener` (the initial load)
emits no `NewMessage` intent and no received-sound play regardless of
content, and records each conversation's current numeric `updatedAt` in
the last-notified-timestamp map as a baseline. -/
theorem initial_snapshot_silent_baseline (env : NotifyEnv) (now : Nat)
    (st : ChatsListenerState) (newChats : List Chat)
    (hinit : st.isInitialChatsLoad = true)
    (hnd : (newChats.map Chat.id).Nodup) :
    (onChatsUpdate env now st newChats).2.1 = [] ∧
    (onChatsUpdate env now st newChats).2.2 = 0 ∧
    ∀ chat ∈ newChats, ∀ ts, chat.updatedAt = some ts →
      (onChatsUpdate env now st newChats).1.notifiedMessageTimestamps chat.id = some ts := by
  refine ⟨by simp [onChatsUpdate, hinit], by simp [onChatsUpdate, hinit], ?_⟩
  intro chat hmem ts hts
  have h := foldl_baseline_mem now newChats st.notifiedMessageTimestamps chat hmem hnd
  simp only [onChatsUpdate, hinit, if_true]
  simpa [hts] using h

/-- Witness for `initial_snapshot_silent_baseline` at the concrete input of
spec scenario A (two conversations with timestamps 100 and 200). -/
theorem initial_snapshot_silent_baseline_witness :
    (ChatsListenerState.mk true (fun _ => none) .connecting).isInitialChatsLoad = true ∧
    (([Chat.mk "conv100" [] [] "" none (some 100),
       Chat.mk "conv200" [] [] "" none (some 200)].map Chat.id).Nodup) ∧
    ((onChatsUpdate (NotifyEnv.mk "me" none false false (fun _ => none)) 999
        (ChatsListenerState.mk true (fun _ => none) .connecting)
        [Chat.mk "conv100" [] [] "" none (some 100),
         Chat.mk "conv200" [] [] "" none (some 200)]).2.1 = [] ∧
    (onChatsUpdate (NotifyEnv.mk "me" none false false (fun _ => none)) 999
        (ChatsListenerState.mk true (fun _ => none) .connecting)
        [Chat.mk "conv100" [] [] "" none (some 100),
         Chat.mk "conv200" [] [] "" none (some 200)]).2.2 = 0 ∧
    ∀ chat ∈ [Chat.mk "conv100" [] [] "" none (some 100),
        Chat.mk "conv200" [] [] "" none (some 200)], ∀ ts, chat.updatedAt = some ts →
      (onChatsUpdate (NotifyEnv.mk "me" none false false (fun _ => none)) 999
        (ChatsListenerState.mk true (fun _ => none) .connecting)
        [Chat.mk "conv100" [] [] "" none (some 100),
         Chat.mk "conv200" [] [] "" none (some 200)]).1.notifiedMessageTimestamps chat.id =
        some ts) :=
  ⟨rfl, by decide, initial_snapshot_silent_baseline _ 999 _ _ rfl (by decide)⟩

/-- A stale chat (timestamp not newer than the recorded one) is a no-op for
the per-chat decision. -/
theorem processChat_stale (env : NotifyEnv) (m : String → Option Nat) (chat : Chat)
    (h : chat.updatedAt.getD 0 ≤ (m chat.id).getD 0) :
    processChat env m chat = (m, none, false) := by
  have h1 : decide ((m chat.id).getD 0 < chat.updatedAt.getD 0) = false :=
    decide_eq_false (Nat.not_lt.mpr h)
  simp [processChat, h1]

/-- A snapshot of entirely stale chats is a no-op for the whole loop. -/
theorem processChats_stale (env : NotifyEnv) (m : String → Option Nat)
    (cs : List Chat)
    (h : ∀ chat ∈ cs, chat.updatedAt.getD 0 ≤ (m chat.id).getD 0) :
    processChats env m cs = (m, [], 0) := by
  induction cs with
  | nil => rfl
  | cons c cs ih =>
    have hc := processChat_stale env m c (h c (List.mem_cons_self _ _))
    have hrest : ∀ chat ∈ cs, chat.updatedAt.getD 0 ≤ (m chat.id).getD 0 :=
      fun chat hm => h chat (List.mem_cons_of_mem _ hm)
    have ihr := ih hrest
    simp only [processChats, List.foldl_cons] at ihr ⊢
    simpa [hc] using ihr

/-- C9: reprocessing a snapshot none of whose timestamps exceed the recorded
last-notified timestamps emits zero intents and zero sound plays and
leaves the last-notified-timestamp map unchanged. -/
theorem replay_same_snapshot_is_noop (env : NotifyEnv) (now : Nat)
    (st : ChatsListenerState) (newChats : List Chat)
    (hpost : st.isInitialChatsLoad = false)
    (hstale : ∀ chat ∈ newChats,
      chat.updatedAt.getD 0 ≤ (st.notifiedMessageTimestamps chat.id).getD 0) :
    (onChatsUpdate env now st newChats).2.1 = [] ∧
    (onChatsUpdate env now st newChats).2.2 = 0 ∧
    (onChatsUpdate env now st newChats).1.notifiedMessageTimestamps =
      st.notifiedMessageTimestamps := by
  have h := processChats_stale env st.notifiedMessageTimestamps newChats hstale
  simp [onChatsUpdate, hpost, h]

/-- Witness for `replay_same_snapshot_is_noop`: replaying the scenario-A
snapshot against its own recorded baselines. -/
theorem replay_same_snapshot_is_noop_witness :
    (ChatsListenerState.mk false
      (fun k => if k = "conv100" then some 100 else
        if k = "conv200" then some 200 else none) .connected).isInitialChatsLoad = false ∧
    (∀ chat ∈ [Chat.mk "conv100" [] [] "" none (some 100),
        Chat.mk "conv200" [] [] "" none (some 200)],
      chat.updatedAt.getD 0 ≤
        (((fun k => if k = "conv100" then some 100 else
          if k = "conv200" then some 200 else none) : String → Option Nat)
            chat.id).getD 0) ∧
    ((onChatsUpdate (NotifyEnv.mk "me" none false false (fun _ => none)) 999
        (ChatsListenerState.mk false
          (fun k => if k = "conv100" then some 100 else
            if k = "conv200" then some 200 else none) .connected)
        [Chat.mk "conv100" [] [] "" none (some 100),
         Chat.mk "conv200" [] [] "" none (some 200)]).2.1 = [] ∧
    (onChatsUpdate (NotifyEnv.mk "me" none false false (fun _ => none)) 999
        (ChatsListenerState.mk false
          (fun k => if k = "conv100" then some 100 else
            if k = "conv200" then some 200 else none) .connected)
        [Chat.mk "conv100" [] [] "" none (some 100),
         Chat.mk "conv200" [] [] "" none (some 200)]).2.2 = 0 ∧
    (onChatsUpdate (NotifyEnv.mk "me" none false false (fun _ => none)) 999
        (ChatsListenerState.mk false
          (fun k => if k = "conv100" then some 100 else
            if k = "conv200" then some 200 else none) .connected)
        [Chat.mk "conv100" [] [] "" none (some 100),
         Chat.mk "conv200" [] [] "" none (some 200)]).1.notifiedMessageTimestamps =
      (fun k => if k = "conv100" then some 100 else
        if k = "conv200" then some 200 else none)) :=
  ⟨rfl, by decide, replay_same_snapshot_is_noop _ 999 _ _ rfl (by decide)⟩

/-- Witness for `presence_second_update_classifies` at the concrete input of
spec scenario D (first-ever update offline, second online). -/
theorem presence_second_update_classifies_witness :
    ((PresenceState.mk (fun _ => false) (fun _ => none)).presenceInitialStates "alice" =
      false) ∧
    (User.mk "alice" "Alice" "" (some false)).isOnline = some false ∧
    (User.mk "alice" "Alice" "" (some true)).isOnline = some true ∧
    ((onPresenceUpdate "alice" (PresenceState.mk (fun _ => false) (fun _ => none))
        (some (User.mk "alice" "Alice" "" (some false)))).2 = [] ∧
    (onPresenceUpdate "alice" (PresenceState.mk (fun _ => false) (fun _ => none))
        (some (User.mk "alice" "Alice" "" (some false)))).1.presenceInitialStates "alice" =
      true ∧
    (onPresenceUpdate "alice" (PresenceState.mk (fun _ => false) (fun _ => none))
        (some (User.mk "alice" "Alice" "" (some false)))).1.otherUserPresence "alice" =
      some (User.mk "alice" "Alice" "" (some false)) ∧
    (onPresenceUpdate "alice"
        (onPresenceUpdate "alice" (PresenceState.mk (fun _ => false) (fun _ => none))
          (some (User.mk "alice" "Alice" "" (some false)))).1
        (some (User.mk "alice" "Alice" "" (some true)))).1.otherUserPresence "alice" =
      some (User.mk "alice" "Alice" "" (some true)) ∧
    (false = false → true = true →
      (onPresenceUpdate "alice"
        (onPresenceUpdate "alice" (PresenceState.mk (fun _ => false) (fun _ => none))
          (some (User.mk "alice" "Alice" "" (some false)))).1
        (some (User.mk "alice" "Alice" "" (some true)))).2 =
        [.contactOnline (jsOr (User.mk "alice" "Alice" "" (some true)).displayName
          (jsOr (User.mk "alice" "Alice" "" (some true)).email "A contact"))]) ∧
    (false = true → true = false →
      (onPresenceUpdate "alice"
        (onPresenceUpdate "alice" (PresenceState.mk (fun _ => false) (fun _ => none))
          (some (User.mk "alice" "Alice" "" (some false)))).1
        (some (User.mk "alice" "Alice" "" (some true)))).2 =
        [.contactOffline (jsOr (User.mk "alice" "Alice" "" (some true)).displayName
          (jsOr (User.mk "alice" "Alice" "" (some true)).email "A contact"))]) ∧
    ((false : Bool) = true →
      (onPresenceUpdate "alice"
        (onPresenceUpdate "alice" (PresenceState.mk (fun _ => false) (fun _ => none))
          (some (User.mk "alice" "Alice" "" (some false)))).1
        (some (User.mk "alice" "Alice" "" (some true)))).2 = [])) :=
  ⟨rfl, rfl, rfl,
   presence_second_update_classifies "alice" (PresenceState.mk (fun _ => false) (fun _ => none))
     (User.mk "alice" "Alice" "" (some false)) (User.mk "alice" "Alice" "" (some true))
     false true rfl rfl rfl⟩

/-- The comparator of `notifyUpdate` is nonpositive exactly when the sort
keys are descending-ordered. -/
theorem chatCompare_nonpos {x y : Chat} : chatCompare x y ≤ 0 ↔ sortKey y ≤ sortKey x := by
  unfold chatCompare
  omega

/-- Members of an insertion are the inserted element or old members. -/
theorem mem_insertJS {x z : Chat} : ∀ {l : List Chat}, z ∈ insertJS x l → z = x ∨ z ∈ l := by
  intro l
  induction l with
  | nil =>
    intro h
    rw [insertJS] at h
    exact Or.inl (List.mem_singleton.mp h)
  | cons y ys ih =>
    intro h
    rw [insertJS] at h
    by_cases hc : chatCompare x y ≤ 0
    · rw [if_pos hc] at h
      rcases List.mem_cons.mp h with rfl | h'
      · exact Or.inl rfl
      · exact Or.inr h'
    · rw [if_neg hc] at h
      rcases List.mem_cons.mp h with rfl | h'
      · exact Or.inr (List.mem_cons_self _ _)
      · rcases ih h' with rfl | hz
        · exact Or.inl rfl
        · exact Or.inr (List.mem_cons_of_mem _ hz)

/-- Insertion preserves descending sortedness by the sort key. -/
theorem insertJS_sorted (x : Chat) (l : List Chat)
    (h : l.Pairwise (fun a b => sortKey b ≤ sortKey a)) :
    (insertJS x l).Pairwise (fun a b => sortKey b ≤ sortKey a) := by
  induction l with
  | nil => simp [insertJS]
  | cons y ys ih =>
    rw [insertJS]
    rcases List.pairwise_cons.mp h with ⟨hy, hys⟩
    by_cases hc : chatCompare x y ≤ 0
    · rw [if_pos hc]
      have hxy : sortKey y ≤ sortKey x := chatCompare_nonpos.mp hc
      refine List.pairwise_cons.mpr ⟨?_, h⟩
      intro z hz
      rcases List.mem_cons.mp hz with rfl | hz'
      · exact hxy
      · exact le_trans (hy z hz') hxy
    · rw [if_neg hc]
      have hyx : sortKey x ≤ sortKey y := by
        unfold chatCompare at hc
        omega
      refine List.pairwise_cons.mpr ⟨?_, ih hys⟩
      intro z hz
      rcases mem_insertJS hz with rfl | hz'
      · exact hyx
      · exact hy z hz'

/-- The stable sort always produces a descending-sorted list. -/
theorem sortJS_sorted (l : List Chat) :
    (sortJS l).Pairwise (fun a b => sortKey b ≤ sortKey a) := by
  induction l with
  | nil => simp [sortJS]
  | cons c cs ih => exact insertJS_sorted c (sortJS cs) ih

/-- C5 amended: every published conversation list is weakly sorted in
descending order of `updatedAt`; the comparator carries no id tie-break,
so ties keep the cache's insertion order. -/
theorem published_list_sorted_desc (chatData : List (String × Chat)) :
    (notifyUpdate chatData).Pairwise (fun a b => sortKey b ≤ sortKey a) :=
  sortJS_sorted _

/-- C5 counterexample: two cached conversations with equal `updatedAt` are
published in cache insertion order, not id order — the two insertion
orders of the same two records yield two different published lists, so no
id tie-break (ascending or descending) describes the output, refuting
"ties broken by conversation id for determinism". -/
theorem tie_break_not_by_id :
    notifyUpdate [("b", Chat.mk "b" [] [] "" none (some 5)),
        ("a", Chat.mk "a" [] [] "" none (some 5))] =
      [Chat.mk "b" [] [] "" none (some 5), Chat.mk "a" [] [] "" none (some 5)] ∧
    notifyUpdate [("a", Chat.mk "a" [] [] "" none (some 5)),
        ("b", Chat.mk "b" [] [] "" none (some 5))] =
      [Chat.mk "a" [] [] "" none (some 5), Chat.mk "b" [] [] "" none (some 5)] ∧
    sortKey (Chat.mk "a" [] [] "" none (some 5)) =
      sortKey (Chat.mk "b" [] [] "" none (some 5)) ∧
    (Chat.mk "a" [] [] "" none (some 5)).id ≠ (Chat.mk "b" [] [] "" none (some 5)).id := by
  decide

/-- Members of the sorted list are members of the input list. -/
theorem mem_sortJS {z : Chat} : ∀ {l : List Chat}, z ∈ sortJS l → z ∈ l := by
  intro l
  induction l with
  | nil => intro h; exact absurd h (by simp [sortJS])
  | cons c cs ih =>
    intro h
    have h' : z ∈ insertJS c (sortJS cs) := h
    rcases mem_insertJS h' with rfl | hz
    · exact List.mem_cons_self _ _
    · exact List.mem_cons_of_mem _ (ih hz)

/-- Members of `mapSetChat m k v` are the new binding or old members. -/
theorem mem_mapSetChat {m : List (String × Chat)} {k : String} {v : Chat}
    {q : String × Chat} (hq : q ∈ mapSetChat m k v) : q = (k, v) ∨ q ∈ m := by
  unfold mapSetChat at hq
  by_cases hany : m.any (fun p => p.1 = k)
  · rw [if_pos hany] at hq
    rcases List.mem_map.mp hq with ⟨p, hp, he⟩
    by_cases h : p.1 = k
    · rw [if_pos h] at he
      exact Or.inl he.symm
    · rw [if_neg h] at he
      exact Or.inr (he ▸ hp)
  · rw [if_neg hany] at hq
    rcases List.mem_append.mp hq with h | h
    · exact Or.inr h
    · exact Or.inl (List.mem_singleton.mp h)

/-- C6 counterexample: when `conv100` disappears from the membership index
while `conv200` remains tracked, the index handler releases the
subscription and drops the cache but publishes nothing at all — no
aggregation is "triggered by that removal itself"; the next publish
comes only from a later per-conversation or index event. -/
theorem index_removal_publishes_nothing :
    (onIndexUpdate
      (SubsState.mk ["conv100", "conv200"]
        [("conv100", Chat.mk "conv100" [] [] "" none (some 100)),
         ("conv200", Chat.mk "conv200" [] [] "" none (some 200))])
      ["conv200"]).2 = [] ∧
    "conv100" ∈ (SubsState.mk ["conv100", "conv200"]
        [("conv100", Chat.mk "conv100" [] [] "" none (some 100)),
         ("conv200", Chat.mk "conv200" [] [] "" none (some 200))]).chatSubscriptions ∧
    "conv100" ∉ (["conv200"] : List String) ∧
    (["conv200"] : List String) ≠ [] ∧
    (onIndexUpdate
      (SubsState.mk ["conv100", "conv200"]
        [("conv100", Chat.mk "conv100" [] [] "" none (some 100)),
         ("conv200", Chat.mk "conv200" [] [] "" none (some 200))])
      ["conv200"]).1 =
      SubsState.mk ["conv200"] [("conv200", Chat.mk "conv200" [] [] "" none (some 200))] := by
  decide

/-- C6 amended: when a conversation id disappears from the membership index
while other ids remain, its subscription is released and its cached
record is dropped with no error, but the removal itself publishes no
aggregation; every aggregation computed from the resulting state — in
particular the one published by the next per-conversation update — no
longer contains it. -/
theorem removed_conversation_released_and_dropped (st : SubsState) (ids : List String)
    (chatId : String)
    (_hsub : chatId ∈ st.chatSubscriptions)
    (hgone : chatId ∉ ids)
    (hrest : ids ≠ [])
    (hinv : ∀ p ∈ st.chatData, Chat.id p.2 = p.1) :
    chatId ∉ (onIndexUpdate st ids).1.chatSubscriptions ∧
    (∀ p ∈ (onIndexUpdate st ids).1.chatData, p.1 ≠ chatId) ∧
    (onIndexUpdate st ids).2 = [] ∧
    (∀ c ∈ notifyUpdate (onIndexUpdate st ids).1.chatData, c.id ≠ chatId) ∧
    (∀ cid snap, cid ≠ chatId →
      ∀ c ∈ (onConversationUpdate (onIndexUpdate st ids).1 cid snap).2, c.id ≠ chatId) := by
  have hsubs : chatId ∉ (onIndexUpdate st ids).1.chatSubscriptions := by
    intro h
    have := (List.mem_filter.mp h).2
    exact hgone (List.elem_iff.mp this)
  have hdata : ∀ p ∈ (onIndexUpdate st ids).1.chatData, p.1 ≠ chatId := by
    intro p hp he
    have := (List.mem_filter.mp hp).2
    rw [he] at this
    exact hgone (List.elem_iff.mp this)
  have hdata_mem : ∀ p ∈ (onIndexUpdate st ids).1.chatData, p ∈ st.chatData := by
    intro p hp
    exact (List.mem_filter.mp hp).1
  have hpub : (onIndexUpdate st ids).2 = [] := by
    unfold onIndexUpdate
    cases ids with
    | nil => exact absurd rfl hrest
    | cons i is => simp
  have hagg : ∀ c ∈ notifyUpdate (onIndexUpdate st ids).1.chatData, c.id ≠ chatId := by
    intro c hc
    rcases List.mem_map.mp (mem_sortJS hc) with ⟨p, hp, rfl⟩
    rw [hinv p (hdata_mem p hp)]
    exact hdata p hp
  refine ⟨hsubs, hdata, hpub, hagg, ?_⟩
  intro cid snap hcid c hc
  rcases snap with _ | csnap
  · rcases List.mem_map.mp (mem_sortJS hc) with ⟨p, hp, rfl⟩
    have hp' := (List.mem_filter.mp hp).1
    rw [hinv p (hdata_mem p hp')]
    exact hdata p hp'
  · rcases List.mem_map.mp (mem_sortJS hc) with ⟨p, hp, rfl⟩
    rcases mem_mapSetChat hp with rfl | hp'
    · exact hcid
    · rw [hinv p (hdata_mem p hp')]
      exact hdata p hp'

/-- Witness for `removed_conversation_released_and_dropped` at the concrete
input of spec scenario E (`conv100` removed while `conv200` remains). -/
theorem removed_conversation_released_and_dropped_witness :
    "conv100" ∈ (SubsState.mk ["conv100", "conv200"]
        [("conv100", Chat.mk "conv100" [] [] "" none (some 100)),
         ("conv200", Chat.mk "conv200" [] [] "" none (some 200))]).chatSubscriptions ∧
    "conv100" ∉ (["conv200"] : List String) ∧
    (["conv200"] : List String) ≠ [] ∧
    (∀ p ∈ (SubsState.mk ["conv100", "conv200"]
        [("conv100", Chat.mk "conv100" [] [] "" none (some 100)),
         ("conv200", Chat.mk "conv200" [] [] "" none (some 200))]).chatData,
      Chat.id p.2 = p.1) ∧
    ("conv100" ∉ (onIndexUpdate (SubsState.mk ["conv100", "conv200"]
        [("conv100", Chat.mk "conv100" [] [] "" none (some 100)),
         ("conv200", Chat.mk "conv200" [] [] "" none (some 200))])
        ["conv200"]).1.chatSubscriptions ∧
    (∀ p ∈ (onIndexUpdate (SubsState.mk ["conv100", "conv200"]
        [("conv100", Chat.mk "conv100" [] [] "" none (some 100)),
         ("conv200", Chat.mk "conv200" [] [] "" none (some 200))])
        ["conv200"]).1.chatData, p.1 ≠ "conv100") ∧
    (onIndexUpdate (SubsState.mk ["conv100", "conv200"]
        [("conv100", Chat.mk "conv100" [] [] "" none (some 100)),
         ("conv200", Chat.mk "conv200" [] [] "" none (some 200))])
        ["conv200"]).2 = [] ∧
    (∀ c ∈ notifyUpdate (onIndexUpdate (SubsState.mk ["conv100", "conv200"]
        [("conv100", Chat.mk "conv100" [] [] "" none (some 100)),
         ("conv200", Chat.mk "conv200" [] [] "" none (some 200))])
        ["conv200"]).1.chatData, c.id ≠ "conv100") ∧
    (∀ cid snap, cid ≠ "conv100" →
      ∀ c ∈ (onConversationUpdate (onIndexUpdate (SubsState.mk ["conv100", "conv200"]
        [("conv100", Chat.mk "conv100" [] [] "" none (some 100)),
         ("conv200", Chat.mk "conv200" [] [] "" none (some 200))])
        ["conv200"]).1 cid snap).2, c.id ≠ "conv100")) :=
  ⟨by decide, by decide, by decide, by decide,
   removed_conversation_released_and_dropped _ _ _ (by decide) (by decide) (by decide)
     (by decide)⟩
